import Mathlib

/-!
# Native side of the Java class io.tsduck.TSProcessor

A shallow embedding of `src/libtsduck/java/private/tsjniTSProcessor.cpp`.

The file is a thin adapter between a Java object and the pipeline engine
`ts::TSProcessor`.  The engine, the report classes, the `ts::jni` field
accessors and the integer typedefs are declared in other files; they enter
the embedding as the parameters gathered in `Deps`.

Conventions of the embedding.

* A Java reference that may be `null` is an `Option`.
* The record `JTSProcessor` holds, for every field of the Java object, the
  value that the `ts::jni` accessor of that field returns.
* The pointer stored in the field `nativeObject` owns the engine it points
  to, so the field is modelled as `Option (TSProcessor E)`: `none` is the
  null handle (the `long` value 0).
* A native method returns its result, the Java object after the call and the
  list of calls it made on the engine and on the report, in program order.
  The engine is deterministic in the embedding: its methods are functions of
  its state.  Threads and time are outside of it.
* A `jint` is an `Int` in the range of `isJint`.  A Java array holds at most
  `2^31 - 1` elements, so the `jsize` index arithmetic of the two loops is
  exact and is done in `Nat`.
* The JVM hands a valid `JNIEnv*` to a native method; only `GetPluginOption`,
  which tests its `env` against `nullptr`, receives an optional one.  No JNI
  call of this file raises an exception for the fields of the Java class, so
  the pending-exception flag of the environment is constant during a call.
-/

namespace tsjni

/-! ## Integer types -/

/-- Range of the JNI type `jint`, a 32-bit signed integer. -/
def isJint (v : Int) : Prop := -2 ^ 31 ≤ v ∧ v < 2 ^ 31

/-- The C++ call `std::max<jint>(a, b)`, which is `(a < b) ? b : a`. -/
def std_max (a b : Int) : Int := if a < b then b else a

/-- Conversion `size_t(x)` of a signed value to an unsigned type of `bits` bits. -/
def size_t (bits : Nat) (x : Int) : Nat := (x % 2 ^ bits).toNat

/-- An integer type named by a typedef that is declared outside of the file. -/
structure IntType where
  bits : Nat
  isSigned : Bool
deriving DecidableEq, Repr

/-- Conversion of a value to the integer type `t`: reduction modulo `2^bits`,
read in two's complement when the type is signed. -/
def IntType.cast (t : IntType) (x : Int) : Int :=
  if t.isSigned then (x + 2 ^ (t.bits - 1)) % 2 ^ t.bits - 2 ^ (t.bits - 1)
  else x % 2 ^ t.bits

/-- The type `t` has a place for every non-negative `jint`. -/
def IntType.holdsJint (t : IntType) : Bool :=
  if t.isSigned then decide (32 ≤ t.bits) else decide (31 ≤ t.bits)

/-! ## Data model -/

/-- A Java `String` reference: `null` or a string. -/
abbrev jstring := Option String

/-- A Java `String[]` reference: `null` or an array of string references. -/
abbrev jstringArray := Option (List jstring)

/-- The class `ts::PluginOptions`: a plugin name and its arguments. -/
structure PluginOptions where
  name : String
  args : List String
deriving DecidableEq, Repr

/-- A default-constructed `ts::PluginOptions`. -/
def PluginOptions.empty : PluginOptions := ⟨"", []⟩

/-- The method `PluginOptions::clear`. -/
def PluginOptions.clear (_plugin : PluginOptions) : PluginOptions := PluginOptions.empty

/-- The enumeration `ts::PluginType`. -/
inductive PluginType where
  | INPUT
  | OUTPUT
  | PROCESSOR
deriving DecidableEq, Repr

/-- The class `ts::TSProcessorArgs`, with the fields that the adapter sets. -/
structure TSProcessorArgs where
  monitor : Bool
  ignore_jt : Bool
  log_plugin_index : Bool
  ts_buffer_size : Nat
  max_flush_pkt : Nat
  max_input_pkt : Nat
  init_input_pkt : Nat
  instuff_nullpkt : Nat
  instuff_inpkt : Nat
  instuff_start : Nat
  instuff_stop : Nat
  fixed_bitrate : Int
  bitrate_adj : Int
  receive_timeout : Int
  app_name : String
  input : PluginOptions
  plugins : List PluginOptions
  output : PluginOptions
deriving DecidableEq, Repr

/-- A non-null `ts::Report*`: the singleton of `ts::NullReport` or the native
object of a Java report. -/
inductive ReportPtr where
  | NullReportInstance
  | native (addr : Nat)
deriving DecidableEq, Repr

/-- A Java `io.tsduck.Report` reference, seen through
`GetPointerField<ts::Report>(env, jreport, "nativeObject")`: `none` when the
accessor returns `nullptr`. -/
structure JReport where
  nativeObject : Option ReportPtr
deriving DecidableEq, Repr

/-- An engine instance `ts::TSProcessor`: the report it was built on and its
state, of a type `E` left to the engine. -/
structure TSProcessor (E : Type) where
  report : ReportPtr
  state : E
deriving DecidableEq, Repr

/-- The Java object `io.tsduck.TSProcessor`. -/
structure JTSProcessor (E : Type) where
  nativeObject : Option (TSProcessor E)
  monitor : Bool
  ignoreJointTermination : Bool
  logPluginIndex : Bool
  bufferSize : Int
  maxFlushedPackets : Int
  maxInputPackets : Int
  initialInputPackets : Int
  addInputStuffingNull : Int
  addInputStuffingInput : Int
  addStartStuffing : Int
  addStopStuffing : Int
  bitrate : Int
  bitrateAdjustInterval : Int
  receiveTimeout : Int
  appName : String
  input : jstringArray
  plugins : Option (List jstringArray)
  output : jstringArray
deriving DecidableEq, Repr

/-- The part of a `JNIEnv` that the file looks at: `env->ExceptionCheck()`. -/
structure JNIEnv where
  exceptionPending : Bool
deriving DecidableEq, Repr

/-- A call made by a native method on the engine or on its report. -/
inductive Event where
  | construct (report : ReportPtr)
  | destruct
  | abort
  | waitForTermination
  | start (args : TSProcessorArgs)
  | debug (report : ReportPtr) (fmt : String) (arg : String)
deriving DecidableEq, Repr

/-- What a native method leaves behind: its result, the Java object after the
call, and the calls it made, in order. -/
structure Outcome (α : Type) (E : Type) where
  ret : α
  obj : JTSProcessor E
  calls : List Event

/-- The declarations that the file uses and that live in other files of the
repository: integer typedefs, the default buffer size, the string conversion
of `ts::jni`, and the engine `ts::TSProcessor` with its report. -/
structure Deps (E : Type) where
  /-- width of `size_t` -/
  size_bits : Nat
  /-- the typedef `ts::BitRate` -/
  BitRate : IntType
  /-- the typedef `ts::MilliSecond` -/
  MilliSecond : IntType
  /-- the constant `ts::TSProcessorArgs::DEFAULT_BUFFER_SIZE` -/
  DEFAULT_BUFFER_SIZE : Nat
  /-- the function `ts::jni::ToUString` -/
  ToUString : jstring → String
  /-- the method `ts::PluginOptions::toString` -/
  toString : PluginOptions → PluginType → String
  /-- the constructor `ts::TSProcessor::TSProcessor(Report&)` -/
  construct : ReportPtr → E
  /-- the method `ts::TSProcessor::start` -/
  start : E → TSProcessorArgs → Bool × E
  /-- the method `ts::TSProcessor::abort` -/
  abort : E → E
  /-- the method `ts::TSProcessor::waitForTermination` -/
  waitForTermination : E → E
  /-- the method `ts::Report::debug()` of the report of an engine -/
  debug : ReportPtr → Bool

/-! ## Native methods -/

/-- Native method `Java_io_tsduck_TSProcessor_initNativeObject` (lines 71-82). -/
def Java_io_tsduck_TSProcessor_initNativeObject {E : Type} (D : Deps E) (_env : JNIEnv)
    (obj : JTSProcessor E) (jreport : JReport) : Outcome Unit E :=
  match obj.nativeObject with
  | some _ => ⟨(), obj, []⟩
  | none =>
    let report : ReportPtr :=
      match jreport.nativeObject with
      | some r => r
      | none => ReportPtr.NullReportInstance
    ⟨(), { obj with nativeObject := some ⟨report, D.construct report⟩ }, [Event.construct report]⟩

/-- Native method `Java_io_tsduck_TSProcessor_abort` (lines 84-90). -/
def Java_io_tsduck_TSProcessor_abort {E : Type} (D : Deps E) (_env : JNIEnv)
    (obj : JTSProcessor E) : Outcome Unit E :=
  match obj.nativeObject with
  | some tsp =>
    ⟨(), { obj with nativeObject := some { tsp with state := D.abort tsp.state } }, [Event.abort]⟩
  | none => ⟨(), obj, []⟩

/-- Native method `Java_io_tsduck_TSProcessor_waitForTermination` (lines 92-98). -/
def Java_io_tsduck_TSProcessor_waitForTermination {E : Type} (D : Deps E) (_env : JNIEnv)
    (obj : JTSProcessor E) : Outcome Unit E :=
  match obj.nativeObject with
  | some tsp =>
    ⟨(), { obj with nativeObject := some { tsp with state := D.waitForTermination tsp.state } },
      [Event.waitForTermination]⟩
  | none => ⟨(), obj, []⟩

/-- Native method `Java_io_tsduck_TSProcessor_delete` (lines 100-107). -/
def Java_io_tsduck_TSProcessor_delete {E : Type} (_D : Deps E) (_env : JNIEnv)
    (obj : JTSProcessor E) : Outcome Unit E :=
  match obj.nativeObject with
  | some _ => ⟨(), { obj with nativeObject := none }, [Event.destruct]⟩
  | none => ⟨(), obj, []⟩

/-- The method `std::vector::resize` on a vector of strings. -/
def resize (xs : List String) (n : Nat) : List String :=
  xs.take n ++ List.replicate (n - xs.length) ""

/-- The loop `for (jsize i = 1; i < count; ++i)` of `GetPluginOption`, entered
at index `i` with `todo = count - i` iterations left. -/
def GetPluginOption.loop {E : Type} (D : Deps E) (strings : List jstring) :
    Nat → Nat → List String → List String
  | _, 0, args => args
  | i, todo + 1, args =>
    GetPluginOption.loop D strings (i + 1) todo (args.set (i - 1) (D.ToUString (strings.getD i none)))

/-- Function `GetPluginOption` (lines 113-128): the result and the plugin description
that the reference parameter holds on return. -/
def GetPluginOption {E : Type} (D : Deps E) (env : Option JNIEnv) (strings : jstringArray)
    (plugin : PluginOptions) : Bool × PluginOptions :=
  let plugin := plugin.clear
  match env, strings with
  | none, _ => (false, plugin)
  | some _, none => (false, plugin)
  | some env, some strings =>
    if env.exceptionPending then (false, plugin)
    else
      let count := strings.length
      let plugin :=
        if 0 < count then
          let name := D.ToUString (strings.getD 0 none)
          let args := resize plugin.args (count - 1)
          { name := name, args := GetPluginOption.loop D strings 1 (count - 1) args }
        else plugin
      (!plugin.name.isEmpty, plugin)

/-- The loop `for (jsize i = 0; ok && i < count; ++i)` of the start method,
entered at index `i` with `todo = count - i` iterations left. -/
def Java_io_tsduck_TSProcessor_start.loop {E : Type} (D : Deps E) (env : JNIEnv)
    (jplugins : List jstringArray) :
    Nat → Nat → Bool → List PluginOptions → Bool × List PluginOptions
  | _, 0, ok, plugins => (ok, plugins)
  | i, todo + 1, ok, plugins =>
    if ok then
      let r := GetPluginOption D (some env) (jplugins.getD i none) (plugins.getD i PluginOptions.empty)
      Java_io_tsduck_TSProcessor_start.loop D env jplugins (i + 1) todo r.1 (plugins.set i r.2)
    else (ok, plugins)

/-- Lines 143-173 of the start method: the flag `ok` and the arguments `args`
as they stand before the debug message. -/
def Java_io_tsduck_TSProcessor_start.args {E : Type} (D : Deps E) (env : JNIEnv)
    (obj : JTSProcessor E) : Bool × TSProcessorArgs :=
  let ts_buffer_size := size_t D.size_bits (std_max 0 obj.bufferSize)
  let ts_buffer_size := if ts_buffer_size = 0 then D.DEFAULT_BUFFER_SIZE else ts_buffer_size
  let jplugins := obj.plugins
  let input := GetPluginOption D (some env) obj.input PluginOptions.empty
  let output :=
    if input.1 then GetPluginOption D (some env) obj.output PluginOptions.empty
    else (false, PluginOptions.empty)
  let ok := input.1 && output.1
  let count := match jplugins with
    | some a => a.length
    | none => 0
  let plugins := List.replicate count PluginOptions.empty
  let r := Java_io_tsduck_TSProcessor_start.loop D env (jplugins.getD []) 0 count ok plugins
  (r.1,
   { monitor := obj.monitor
     ignore_jt := obj.ignoreJointTermination
     log_plugin_index := obj.logPluginIndex
     ts_buffer_size := ts_buffer_size
     max_flush_pkt := size_t D.size_bits (std_max 0 obj.maxFlushedPackets)
     max_input_pkt := size_t D.size_bits (std_max 0 obj.maxInputPackets)
     init_input_pkt := size_t D.size_bits (std_max 0 obj.initialInputPackets)
     instuff_nullpkt := size_t D.size_bits (std_max 0 obj.addInputStuffingNull)
     instuff_inpkt := size_t D.size_bits (std_max 0 obj.addInputStuffingInput)
     instuff_start := size_t D.size_bits (std_max 0 obj.addStartStuffing)
     instuff_stop := size_t D.size_bits (std_max 0 obj.addStopStuffing)
     fixed_bitrate := D.BitRate.cast (std_max 0 obj.bitrate)
     bitrate_adj := D.MilliSecond.cast (std_max 0 obj.bitrateAdjustInterval)
     receive_timeout := D.MilliSecond.cast (std_max 0 obj.receiveTimeout)
     app_name := obj.appName
     input := input.2
     plugins := r.2
     output := output.2 })

/-- The text of the debug message of the start method (lines 177-185). -/
def Java_io_tsduck_TSProcessor_start.cmd {E : Type} (D : Deps E) (args : TSProcessorArgs) : String :=
  let cmd := args.app_name
  let cmd := cmd ++ " "
  let cmd := cmd ++ D.toString args.input PluginType.INPUT
  let cmd := args.plugins.foldl (fun cmd it => (cmd ++ " ") ++ D.toString it PluginType.PROCESSOR) cmd
  let cmd := cmd ++ " "
  cmd ++ D.toString args.output PluginType.OUTPUT

/-- Native method `Java_io_tsduck_TSProcessor_start` (lines 135-191). -/
def Java_io_tsduck_TSProcessor_start {E : Type} (D : Deps E) (env : JNIEnv)
    (obj : JTSProcessor E) : Outcome Bool E :=
  match obj.nativeObject with
  | none => ⟨false, obj, []⟩
  | some tsp =>
    let built := Java_io_tsduck_TSProcessor_start.args D env obj
    let ok := built.1
    let args := built.2
    let log :=
      if D.debug tsp.report then
        [Event.debug tsp.report "starting: %s" (Java_io_tsduck_TSProcessor_start.cmd D args)]
      else []
    if ok then
      let r := D.start tsp.state args
      ⟨r.1, { obj with nativeObject := some { tsp with state := r.2 } }, log ++ [Event.start args]⟩
    else ⟨false, obj, log⟩

/-! ## Vocabulary of the statements -/

/-- The call is a call of `ts::TSProcessor::start`. -/
def Event.isStart : Event → Bool
  | Event.start _ => true
  | _ => false

/-- The description names a plugin: it is an array with a first string, and
this string converts to a non-empty name. -/
def hasName {E : Type} (D : Deps E) (d : jstringArray) : Prop :=
  ∃ s rest, d = some (s :: rest) ∧ D.ToUString s ≠ ""

/-- The description names no plugin: it is `null`, a zero-length array, or an
array whose first string converts to the empty name. -/
def lacksName {E : Type} (D : Deps E) (d : jstringArray) : Prop :=
  d = none ∨ d = some [] ∨ ∃ s rest, d = some (s :: rest) ∧ D.ToUString s = ""

/-- The plugin description that `GetPluginOption` reads from a Java array. -/
def parsePlugin {E : Type} (D : Deps E) (env : JNIEnv) (d : jstringArray) : PluginOptions :=
  (GetPluginOption D (some env) d PluginOptions.empty).2

/-- The plugin description that a Java array stands for: the first string is
the name and the other strings are the arguments, in their order; an array that
is `null` or has no string stands for the empty description. -/
def describe {E : Type} (D : Deps E) (d : jstringArray) : PluginOptions :=
  match d with
  | some (s :: rest) => ⟨D.ToUString s, rest.map D.ToUString⟩
  | _ => PluginOptions.empty

/-- The configuration passes the validation, said on the fields of the Java
object: no exception is pending, and the input description, the output
description and every description of the processor chain name a plugin. -/
def validConfiguration {E : Type} (D : Deps E) (env : JNIEnv) (obj : JTSProcessor E) : Prop :=
  env.exceptionPending = false ∧ hasName D obj.input ∧ hasName D obj.output
    ∧ ∀ d ∈ obj.plugins.getD [], hasName D d

/-- The arguments that a valid configuration stands for, field by field: the
three flags and the application name as they are, the buffer size or the default
when it converts to 0, the ten numeric fields clamped at 0 and converted, and
the three plugin descriptions, the chain in the order of the array. -/
def fieldArgs {E : Type} (D : Deps E) (obj : JTSProcessor E) : TSProcessorArgs where
  monitor := obj.monitor
  ignore_jt := obj.ignoreJointTermination
  log_plugin_index := obj.logPluginIndex
  ts_buffer_size :=
    if size_t D.size_bits (std_max 0 obj.bufferSize) = 0 then D.DEFAULT_BUFFER_SIZE
    else size_t D.size_bits (std_max 0 obj.bufferSize)
  max_flush_pkt := size_t D.size_bits (std_max 0 obj.maxFlushedPackets)
  max_input_pkt := size_t D.size_bits (std_max 0 obj.maxInputPackets)
  init_input_pkt := size_t D.size_bits (std_max 0 obj.initialInputPackets)
  instuff_nullpkt := size_t D.size_bits (std_max 0 obj.addInputStuffingNull)
  instuff_inpkt := size_t D.size_bits (std_max 0 obj.addInputStuffingInput)
  instuff_start := size_t D.size_bits (std_max 0 obj.addStartStuffing)
  instuff_stop := size_t D.size_bits (std_max 0 obj.addStopStuffing)
  fixed_bitrate := D.BitRate.cast (std_max 0 obj.bitrate)
  bitrate_adj := D.MilliSecond.cast (std_max 0 obj.bitrateAdjustInterval)
  receive_timeout := D.MilliSecond.cast (std_max 0 obj.receiveTimeout)
  app_name := obj.appName
  input := describe D obj.input
  plugins := (obj.plugins.getD []).map (describe D)
  output := describe D obj.output

/-! ## Sample data -/

/-- A 64-bit platform and a toy engine that counts its starts. -/
def sampleDeps : Deps Nat where
  size_bits := 64
  BitRate := ⟨64, false⟩
  MilliSecond := ⟨64, true⟩
  DEFAULT_BUFFER_SIZE := 16000000
  ToUString := fun s => s.getD ""
  toString := fun p _ => p.name
  construct := fun _ => 0
  start := fun n _ => (true, n + 1)
  abort := fun n => n
  waitForTermination := fun n => n
  debug := fun _ => false

/-- An environment without pending exception. -/
def sampleEnv : JNIEnv := ⟨false⟩

/-- A Java object with an engine, a negative buffer size and one processor. -/
def sampleObject : JTSProcessor Nat where
  nativeObject := some ⟨ReportPtr.NullReportInstance, 0⟩
  monitor := false
  ignoreJointTermination := false
  logPluginIndex := false
  bufferSize := -5
  maxFlushedPackets := 7
  maxInputPackets := -1
  initialInputPackets := 0
  addInputStuffingNull := 2147483647
  addInputStuffingInput := -2147483648
  addStartStuffing := 3
  addStopStuffing := 4
  bitrate := -9
  bitrateAdjustInterval := 5000
  receiveTimeout := 0
  appName := "demo"
  input := some [some "file", some "in.ts"]
  plugins := some [some [some "until", some "--packets", some "10"]]
  output := some [some "drop"]

/-- The sample object after a delete: its handle is null. -/
def sampleDeleted : JTSProcessor Nat := { sampleObject with nativeObject := none }

/-- The sample object with an output description that holds one empty string. -/
def sampleNoOutput : JTSProcessor Nat := { sampleObject with output := some [some ""] }

/-- The sample object with a processor chain that holds one zero-length
description. -/
def sampleBadChain : JTSProcessor Nat := { sampleObject with plugins := some [some []] }

/-- The sample object with a `null` processor chain. -/
def sampleNoChain : JTSProcessor Nat := { sampleObject with plugins := none }

/-! ## Lemmas -/

section
variable {E : Type}

theorem std_max_zero (v : Int) : std_max 0 v = max 0 v := by
  unfold std_max
  split <;> omega

theorem size_t_exact (bits : Nat) (x : Int) (h0 : 0 ≤ x) (h1 : x < 2 ^ 31) (hb : 31 ≤ bits) :
    (size_t bits x : Int) = x := by
  unfold size_t
  have h2 : (2:Int) ^ 31 ≤ 2 ^ bits := pow_le_pow_right₀ (by norm_num) hb
  have h3 : x % 2 ^ bits = x := Int.emod_eq_of_lt h0 (lt_of_lt_of_le h1 h2)
  rw [h3]
  exact Int.toNat_of_nonneg h0

theorem cast_exact (t : IntType) (x : Int) (h0 : 0 ≤ x) (h1 : x < 2 ^ 31)
    (ht : t.holdsJint = true) : t.cast x = x := by
  obtain ⟨bits, s⟩ := t
  cases s
  · simp only [IntType.holdsJint, IntType.cast, Bool.false_eq_true, if_false,
      decide_eq_true_eq] at ht ⊢
    have h2 : (2:Int) ^ 31 ≤ 2 ^ bits := pow_le_pow_right₀ (by norm_num) ht
    exact Int.emod_eq_of_lt h0 (lt_of_lt_of_le h1 h2)
  · simp only [IntType.holdsJint, IntType.cast, if_true, decide_eq_true_eq] at ht ⊢
    obtain ⟨k, hk⟩ : ∃ k, bits = k + 1 := ⟨bits - 1, by omega⟩
    have hk31 : 31 ≤ k := by omega
    have h2 : (2:Int) ^ 31 ≤ 2 ^ k := pow_le_pow_right₀ (by norm_num) hk31
    rw [hk, Nat.add_sub_cancel, pow_succ]
    have hpos : (0:Int) < 2 ^ k := by positivity
    rw [Int.emod_eq_of_lt (by omega) (by omega)]
    omega

theorem take_succ_set {α : Type} (l : List α) (j : Nat) (v : α) (h : j < l.length) :
    (l.set j v).take (j + 1) = l.take j ++ [v] := by
  induction l generalizing j with
  | nil => simp at h
  | cons x xs ih =>
    cases j with
    | zero => simp
    | succ k =>
      have hk : k < xs.length := by simpa using h
      simp [ih k hk]

theorem GetPluginOption.loop_eq (D : Deps E) (strings : List jstring) :
    ∀ (todo j : Nat) (args : List String), j + 1 + todo = strings.length →
      args.length + 1 = strings.length →
      GetPluginOption.loop D strings (j + 1) todo args
        = args.take j ++ (strings.drop (j + 1)).map D.ToUString := by
  intro todo
  induction todo with
  | zero =>
    intro j args h1 h2
    have hj : j = args.length := by omega
    have hd : strings.drop (j + 1) = [] := List.drop_eq_nil_of_le (by omega)
    rw [hd, hj]
    simp [GetPluginOption.loop]
  | succ t ih =>
    intro j args h1 h2
    have hlt : j + 1 < strings.length := by omega
    have hja : j < args.length := by omega
    have hstep : GetPluginOption.loop D strings (j + 1) (t + 1) args
        = GetPluginOption.loop D strings (j + 1 + 1) t
            (args.set j (D.ToUString (strings.getD (j + 1) none))) := rfl
    rw [hstep, ih (j + 1) _ (by omega) (by simpa using h2), take_succ_set _ _ _ hja]
    have hd : strings.drop (j + 1) = strings[j + 1] :: strings.drop (j + 1 + 1) :=
      List.drop_eq_getElem_cons hlt
    have hg : strings.getD (j + 1) none = strings[j + 1] := by
      simp [List.getD_eq_getElem?_getD, List.getElem?_eq_getElem hlt]
    rw [hd, hg]
    simp only [List.map_cons, List.append_assoc, List.singleton_append]

theorem GetPluginOption_cons (D : Deps E) (env : JNIEnv) (s : jstring) (rest : List jstring)
    (plugin : PluginOptions) (hx : env.exceptionPending = false) :
    GetPluginOption D (some env) (some (s :: rest)) plugin
      = (!(D.ToUString s).isEmpty, ⟨D.ToUString s, rest.map D.ToUString⟩) := by
  have hl := GetPluginOption.loop_eq D (s :: rest) rest.length 0
    (List.replicate rest.length "") (by simp; omega) (by simp)
  simp [GetPluginOption, hx, resize, PluginOptions.clear, PluginOptions.empty] at hl ⊢
  exact hl

/-- The result of `GetPluginOption` does not depend on what the reference
parameter held before the call. -/
theorem GetPluginOption_fresh (D : Deps E) (env : Option JNIEnv) (strings : jstringArray)
    (plugin : PluginOptions) :
    GetPluginOption D env strings plugin = GetPluginOption D env strings PluginOptions.empty := rfl

theorem start_loop_fst (D : Deps E) (env : JNIEnv) (jplugins : List jstringArray) :
    ∀ (todo i : Nat) (ok : Bool) (plugins : List PluginOptions), i + todo = jplugins.length →
      (Java_io_tsduck_TSProcessor_start.loop D env jplugins i todo ok plugins).1
        = (ok && (jplugins.drop i).all
            (fun s => (GetPluginOption D (some env) s PluginOptions.empty).1)) := by
  intro todo
  induction todo with
  | zero =>
    intro i ok plugins h
    have hd : jplugins.drop i = [] := List.drop_eq_nil_of_le (by omega)
    rw [hd]
    simp [Java_io_tsduck_TSProcessor_start.loop]
  | succ t ih =>
    intro i ok plugins h
    have hlt : i < jplugins.length := by omega
    have hd : jplugins.drop i = jplugins[i] :: jplugins.drop (i + 1) :=
      List.drop_eq_getElem_cons hlt
    have hg : jplugins.getD i none = jplugins[i] := by
      simp [List.getD_eq_getElem?_getD, List.getElem?_eq_getElem hlt]
    cases ok with
    | false => simp [Java_io_tsduck_TSProcessor_start.loop]
    | true =>
      have hstep : Java_io_tsduck_TSProcessor_start.loop D env jplugins i (t + 1) true plugins
          = Java_io_tsduck_TSProcessor_start.loop D env jplugins (i + 1) t
              (GetPluginOption D (some env) (jplugins.getD i none)
                (plugins.getD i PluginOptions.empty)).1
              (plugins.set i (GetPluginOption D (some env) (jplugins.getD i none)
                (plugins.getD i PluginOptions.empty)).2) := rfl
      rw [hstep, ih (i + 1) _ _ (by omega), hd, hg, GetPluginOption_fresh]
      simp only [List.all_cons, Bool.true_and]

theorem start_loop_length (D : Deps E) (env : JNIEnv) (jplugins : List jstringArray) :
    ∀ (todo i : Nat) (ok : Bool) (plugins : List PluginOptions),
      (Java_io_tsduck_TSProcessor_start.loop D env jplugins i todo ok plugins).2.length
        = plugins.length := by
  intro todo
  induction todo with
  | zero => intro i ok plugins; rfl
  | succ t ih =>
    intro i ok plugins
    cases ok with
    | false => rfl
    | true =>
      have hstep : Java_io_tsduck_TSProcessor_start.loop D env jplugins i (t + 1) true plugins
          = Java_io_tsduck_TSProcessor_start.loop D env jplugins (i + 1) t
              (GetPluginOption D (some env) (jplugins.getD i none)
                (plugins.getD i PluginOptions.empty)).1
              (plugins.set i (GetPluginOption D (some env) (jplugins.getD i none)
                (plugins.getD i PluginOptions.empty)).2) := rfl
      rw [hstep, ih]
      simp

theorem start_loop_snd (D : Deps E) (env : JNIEnv) (jplugins : List jstringArray) :
    ∀ (todo i : Nat) (ok : Bool) (plugins : List PluginOptions), i + todo = jplugins.length →
      plugins.length = jplugins.length →
      (Java_io_tsduck_TSProcessor_start.loop D env jplugins i todo ok plugins).1 = true →
      (Java_io_tsduck_TSProcessor_start.loop D env jplugins i todo ok plugins).2
        = plugins.take i ++ (jplugins.drop i).map
            (fun s => (GetPluginOption D (some env) s PluginOptions.empty).2) := by
  intro todo
  induction todo with
  | zero =>
    intro i ok plugins h hl _
    have hd : jplugins.drop i = [] := List.drop_eq_nil_of_le (by omega)
    have ht : plugins.take i = plugins := List.take_of_length_le (by omega)
    rw [hd, ht]
    simp [Java_io_tsduck_TSProcessor_start.loop]
  | succ t ih =>
    intro i ok plugins h hl hok
    have hlt : i < jplugins.length := by omega
    have hd : jplugins.drop i = jplugins[i] :: jplugins.drop (i + 1) :=
      List.drop_eq_getElem_cons hlt
    have hg : jplugins.getD i none = jplugins[i] := by
      simp [List.getD_eq_getElem?_getD, List.getElem?_eq_getElem hlt]
    cases ok with
    | false => simp [Java_io_tsduck_TSProcessor_start.loop] at hok
    | true =>
      have hstep : Java_io_tsduck_TSProcessor_start.loop D env jplugins i (t + 1) true plugins
          = Java_io_tsduck_TSProcessor_start.loop D env jplugins (i + 1) t
              (GetPluginOption D (some env) (jplugins.getD i none)
                (plugins.getD i PluginOptions.empty)).1
              (plugins.set i (GetPluginOption D (some env) (jplugins.getD i none)
                (plugins.getD i PluginOptions.empty)).2) := rfl
      rw [hstep] at hok ⊢
      rw [ih (i + 1) _ _ (by omega) (by simpa using hl) hok,
        take_succ_set _ _ _ (by omega), hd, hg, GetPluginOption_fresh]
      simp only [List.map_cons, List.append_assoc, List.singleton_append]

theorem start_args_ok (D : Deps E) (env : JNIEnv) (obj : JTSProcessor E) :
    (Java_io_tsduck_TSProcessor_start.args D env obj).1
      = ((GetPluginOption D (some env) obj.input PluginOptions.empty).1
          && (GetPluginOption D (some env) obj.output PluginOptions.empty).1
          && (obj.plugins.getD []).all
              (fun s => (GetPluginOption D (some env) s PluginOptions.empty).1)) := by
  unfold Java_io_tsduck_TSProcessor_start.args
  simp only []
  rw [start_loop_fst D env (obj.plugins.getD []) _ 0 _ _ (by cases obj.plugins <;> simp)]
  cases (GetPluginOption D (some env) obj.input PluginOptions.empty).1 <;> simp

theorem start_args_plugins_length (D : Deps E) (env : JNIEnv) (obj : JTSProcessor E) :
    (Java_io_tsduck_TSProcessor_start.args D env obj).2.plugins.length
      = (obj.plugins.getD []).length := by
  unfold Java_io_tsduck_TSProcessor_start.args
  simp only []
  rw [start_loop_length]
  cases obj.plugins <;> simp

theorem start_args_plugins (D : Deps E) (env : JNIEnv) (obj : JTSProcessor E)
    (hok : (Java_io_tsduck_TSProcessor_start.args D env obj).1 = true) :
    (Java_io_tsduck_TSProcessor_start.args D env obj).2.plugins
      = (obj.plugins.getD []).map
          (fun s => (GetPluginOption D (some env) s PluginOptions.empty).2) := by
  unfold Java_io_tsduck_TSProcessor_start.args at hok ⊢
  simp only [] at hok ⊢
  rw [start_loop_snd D env (obj.plugins.getD []) _ 0 _ _ (by cases obj.plugins <;> simp)
    (by cases obj.plugins <;> simp) hok]
  simp

theorem start_calls (D : Deps E) (env : JNIEnv) (obj : JTSProcessor E) (a : TSProcessorArgs)
    (h : Event.start a ∈ (Java_io_tsduck_TSProcessor_start D env obj).calls) :
    a = (Java_io_tsduck_TSProcessor_start.args D env obj).2
      ∧ (Java_io_tsduck_TSProcessor_start.args D env obj).1 = true
      ∧ obj.nativeObject ≠ none := by
  unfold Java_io_tsduck_TSProcessor_start at h
  cases hn : obj.nativeObject with
  | none => simp [hn] at h
  | some tsp =>
    simp only [hn] at h
    cases hok : (Java_io_tsduck_TSProcessor_start.args D env obj).1 with
    | false =>
      simp only [hok] at h
      by_cases hd : D.debug tsp.report = true <;> simp [hd] at h
    | true =>
      simp only [hok, if_true] at h
      by_cases hd : D.debug tsp.report = true <;> simp [hd] at h <;> simp [h]

theorem start_some (D : Deps E) (env : JNIEnv) (obj : JTSProcessor E) (tsp : TSProcessor E)
    (hn : obj.nativeObject = some tsp) :
    Java_io_tsduck_TSProcessor_start D env obj =
      (if (Java_io_tsduck_TSProcessor_start.args D env obj).1 = true then
        ⟨(D.start tsp.state (Java_io_tsduck_TSProcessor_start.args D env obj).2).1,
         { obj with nativeObject := some { tsp with
            state := (D.start tsp.state (Java_io_tsduck_TSProcessor_start.args D env obj).2).2 } },
         (if D.debug tsp.report = true then
            [Event.debug tsp.report "starting: %s"
              (Java_io_tsduck_TSProcessor_start.cmd D
                (Java_io_tsduck_TSProcessor_start.args D env obj).2)]
          else []) ++ [Event.start (Java_io_tsduck_TSProcessor_start.args D env obj).2]⟩
      else
        ⟨false, obj,
         (if D.debug tsp.report = true then
            [Event.debug tsp.report "starting: %s"
              (Java_io_tsduck_TSProcessor_start.cmd D
                (Java_io_tsduck_TSProcessor_start.args D env obj).2)]
          else [])⟩) := by
  unfold Java_io_tsduck_TSProcessor_start
  simp only [hn]


theorem GetPluginOption_hasName (D : Deps E) (env : JNIEnv) (d : jstringArray)
    (plugin : PluginOptions) (hx : env.exceptionPending = false) :
    (GetPluginOption D (some env) d plugin).1 = true ↔ hasName D d := by
  unfold hasName
  cases d with
  | none => simp [GetPluginOption]
  | some strings =>
    cases strings with
    | nil => simp [GetPluginOption, hx, PluginOptions.clear, PluginOptions.empty, String.isEmpty_iff]
    | cons s rest =>
      rw [GetPluginOption_cons D env s rest plugin hx]
      simp only [Bool.not_eq_true', Option.some.injEq, List.cons.injEq, ne_eq]
      constructor
      · intro h
        exact ⟨s, rest, ⟨rfl, rfl⟩, fun he => by
          have hb := (String.isEmpty_iff _).mpr he
          rw [hb] at h
          exact Bool.noConfusion h⟩
      · rintro ⟨s2, rest2, ⟨h1, _⟩, hne⟩
        subst h1
        cases hb : (D.ToUString s).isEmpty with
        | false => rfl
        | true => exact absurd ((String.isEmpty_iff _).mp hb) hne

theorem GetPluginOption_lacksName (D : Deps E) (env : JNIEnv) (d : jstringArray)
    (plugin : PluginOptions) (h : lacksName D d) :
    (GetPluginOption D (some env) d plugin).1 = false := by
  cases hx : env.exceptionPending with
  | true =>
    cases d with
    | none => simp [GetPluginOption]
    | some strings => simp [GetPluginOption, hx]
  | false =>
    have hiff := GetPluginOption_hasName D env d plugin hx
    cases hr : (GetPluginOption D (some env) d plugin).1 with
    | false => rfl
    | true =>
      obtain ⟨s, rest, hd, hne⟩ := hiff.mp hr
      rcases h with h | h | ⟨s2, rest2, hd2, he⟩
      · simp [hd] at h
      · simp [hd] at h
      · rw [hd] at hd2
        simp only [Option.some.injEq, List.cons.injEq] at hd2
        rw [hd2.1] at hne
        exact absurd he hne

theorem size_t_std_max (bits : Nat) (v : Int) (hv : isJint v) (hb : 31 ≤ bits) :
    (size_t bits (std_max 0 v) : Int) = max 0 v := by
  have hm := std_max_zero v
  rw [hm]
  exact size_t_exact bits (max 0 v) (le_max_left 0 v) (max_lt (by norm_num) hv.2) hb

theorem cast_std_max (t : IntType) (v : Int) (hv : isJint v) (ht : t.holdsJint = true) :
    t.cast (std_max 0 v) = max 0 v := by
  have hm := std_max_zero v
  rw [hm]
  exact cast_exact t (max 0 v) (le_max_left 0 v) (max_lt (by norm_num) hv.2) ht

/-- C1. In the start method, for every `jint` value `b` of the field `bufferSize`, the
`ts_buffer_size` of the arguments that the method builds, and of any
arguments that it hands to the start of the engine, is the default buffer
size when `b ≤ 0` and is `b` when `0 < b`; it is positive as soon as the default
is.  `size_t` has 31 bits or more. -/
theorem C1_ts_buffer_size (D : Deps E) (env : JNIEnv) (obj : JTSProcessor E)
    (hb : isJint obj.bufferSize) (hs : 31 ≤ D.size_bits) (a : TSProcessorArgs)
    (ha : a = (Java_io_tsduck_TSProcessor_start.args D env obj).2
      ∨ Event.start a ∈ (Java_io_tsduck_TSProcessor_start D env obj).calls) :
    (obj.bufferSize ≤ 0 → a.ts_buffer_size = D.DEFAULT_BUFFER_SIZE)
      ∧ (0 < obj.bufferSize → (a.ts_buffer_size : Int) = obj.bufferSize)
      ∧ (0 < D.DEFAULT_BUFFER_SIZE → 0 < a.ts_buffer_size) := by
  have ha2 : a = (Java_io_tsduck_TSProcessor_start.args D env obj).2 := by
    rcases ha with ha | ha
    · exact ha
    · exact (start_calls D env obj a ha).1
  have hsz := size_t_std_max D.size_bits obj.bufferSize hb hs
  have hts : a.ts_buffer_size
      = if size_t D.size_bits (std_max 0 obj.bufferSize) = 0 then D.DEFAULT_BUFFER_SIZE
        else size_t D.size_bits (std_max 0 obj.bufferSize) := by
    rw [ha2]; rfl
  refine ⟨fun h => ?_, fun h => ?_, fun h => ?_⟩
  · have h0 : size_t D.size_bits (std_max 0 obj.bufferSize) = 0 := by
      have : max 0 obj.bufferSize = 0 := max_eq_left h
      omega
    rw [hts, if_pos h0]
  · have hm : max 0 obj.bufferSize = obj.bufferSize := max_eq_right (le_of_lt h)
    have h0 : size_t D.size_bits (std_max 0 obj.bufferSize) ≠ 0 := by omega
    rw [hts, if_neg h0, hsz, hm]
  · rw [hts]
    split
    · exact h
    · omega

/-- Witness of C1 on the sample object, whose buffer size is -5: the engine is
started with the default buffer size. -/
theorem C1_ts_buffer_size_witness :
    (Java_io_tsduck_TSProcessor_start.args sampleDeps sampleEnv sampleObject).2.ts_buffer_size
      = sampleDeps.DEFAULT_BUFFER_SIZE :=
  (C1_ts_buffer_size sampleDeps sampleEnv sampleObject (by norm_num [isJint, sampleObject])
    (by decide) (Java_io_tsduck_TSProcessor_start.args sampleDeps sampleEnv sampleObject).2
    (Or.inr (by decide))).1 (by decide)

/-- C2. In the start method, when the ten numeric fields of the Java object hold
`jint` values, the matching fields of the arguments that the method builds,
and of any arguments that it hands to the start of the engine, are `max 0 v`
of the value `v` read: a negative value becomes 0 and any other value goes
through the conversion unchanged.  `size_t`, `BitRate` and `MilliSecond` have a
place for every non-negative `jint`. -/
theorem C2_numeric_fields (D : Deps E) (env : JNIEnv) (obj : JTSProcessor E)
    (hs : 31 ≤ D.size_bits) (hbr : D.BitRate.holdsJint = true)
    (hms : D.MilliSecond.holdsJint = true)
    (h1 : isJint obj.maxFlushedPackets) (h2 : isJint obj.maxInputPackets)
    (h3 : isJint obj.initialInputPackets) (h4 : isJint obj.addInputStuffingNull)
    (h5 : isJint obj.addInputStuffingInput) (h6 : isJint obj.addStartStuffing)
    (h7 : isJint obj.addStopStuffing) (h8 : isJint obj.bitrate)
    (h9 : isJint obj.bitrateAdjustInterval) (h10 : isJint obj.receiveTimeout)
    (a : TSProcessorArgs)
    (ha : a = (Java_io_tsduck_TSProcessor_start.args D env obj).2
      ∨ Event.start a ∈ (Java_io_tsduck_TSProcessor_start D env obj).calls) :
    (a.max_flush_pkt : Int) = max 0 obj.maxFlushedPackets
      ∧ (a.max_input_pkt : Int) = max 0 obj.maxInputPackets
      ∧ (a.init_input_pkt : Int) = max 0 obj.initialInputPackets
      ∧ (a.instuff_nullpkt : Int) = max 0 obj.addInputStuffingNull
      ∧ (a.instuff_inpkt : Int) = max 0 obj.addInputStuffingInput
      ∧ (a.instuff_start : Int) = max 0 obj.addStartStuffing
      ∧ (a.instuff_stop : Int) = max 0 obj.addStopStuffing
      ∧ a.fixed_bitrate = max 0 obj.bitrate
      ∧ a.bitrate_adj = max 0 obj.bitrateAdjustInterval
      ∧ a.receive_timeout = max 0 obj.receiveTimeout := by
  have ha2 : a = (Java_io_tsduck_TSProcessor_start.args D env obj).2 := by
    rcases ha with ha | ha
    · exact ha
    · exact (start_calls D env obj a ha).1
  subst ha2
  exact ⟨size_t_std_max _ _ h1 hs, size_t_std_max _ _ h2 hs, size_t_std_max _ _ h3 hs,
    size_t_std_max _ _ h4 hs, size_t_std_max _ _ h5 hs, size_t_std_max _ _ h6 hs,
    size_t_std_max _ _ h7 hs, cast_std_max _ _ h8 hbr, cast_std_max _ _ h9 hms,
    cast_std_max _ _ h10 hms⟩

/-- Witness of C2 on the sample object: the values -1, -2147483648 and -9 become
0, and 7, 2147483647 and 5000 go through. -/
theorem C2_numeric_fields_witness :
    ((Java_io_tsduck_TSProcessor_start.args sampleDeps sampleEnv sampleObject).2.max_flush_pkt : Int)
        = max 0 7
      ∧ ((Java_io_tsduck_TSProcessor_start.args sampleDeps sampleEnv sampleObject).2.max_input_pkt : Int)
        = max 0 (-1)
      ∧ ((Java_io_tsduck_TSProcessor_start.args sampleDeps sampleEnv sampleObject).2.init_input_pkt : Int)
        = max 0 0
      ∧ ((Java_io_tsduck_TSProcessor_start.args sampleDeps sampleEnv sampleObject).2.instuff_nullpkt : Int)
        = max 0 2147483647
      ∧ ((Java_io_tsduck_TSProcessor_start.args sampleDeps sampleEnv sampleObject).2.instuff_inpkt : Int)
        = max 0 (-2147483648)
      ∧ ((Java_io_tsduck_TSProcessor_start.args sampleDeps sampleEnv sampleObject).2.instuff_start : Int)
        = max 0 3
      ∧ ((Java_io_tsduck_TSProcessor_start.args sampleDeps sampleEnv sampleObject).2.instuff_stop : Int)
        = max 0 4
      ∧ (Java_io_tsduck_TSProcessor_start.args sampleDeps sampleEnv sampleObject).2.fixed_bitrate
        = max 0 (-9)
      ∧ (Java_io_tsduck_TSProcessor_start.args sampleDeps sampleEnv sampleObject).2.bitrate_adj
        = max 0 5000
      ∧ (Java_io_tsduck_TSProcessor_start.args sampleDeps sampleEnv sampleObject).2.receive_timeout
        = max 0 0 :=
  C2_numeric_fields sampleDeps sampleEnv sampleObject (by decide) (by decide) (by decide)
    (by norm_num [isJint, sampleObject]) (by norm_num [isJint, sampleObject])
    (by norm_num [isJint, sampleObject]) (by norm_num [isJint, sampleObject])
    (by norm_num [isJint, sampleObject]) (by norm_num [isJint, sampleObject])
    (by norm_num [isJint, sampleObject]) (by norm_num [isJint, sampleObject])
    (by norm_num [isJint, sampleObject]) (by norm_num [isJint, sampleObject])
    (Java_io_tsduck_TSProcessor_start.args sampleDeps sampleEnv sampleObject).2
    (Or.inr (by decide))

/-- The conversion does wrap where the hypothesis on the width fails: a 16-bit
`size_t` turns 65536 into 0. -/
theorem size_t_wraps : size_t 16 (std_max 0 65536) = 0 := by decide

theorem start_args_lacksName (D : Deps E) (env : JNIEnv) (obj : JTSProcessor E)
    (h : lacksName D obj.output ∨ lacksName D obj.input) :
    (Java_io_tsduck_TSProcessor_start.args D env obj).1 = false := by
  rw [start_args_ok]
  rcases h with h | h
  · rw [GetPluginOption_lacksName D env obj.output _ h]
    simp
  · rw [GetPluginOption_lacksName D env obj.input _ h]
    simp

theorem filter_isStart_log (D : Deps E) (tsp : TSProcessor E) (s : String) :
    (if D.debug tsp.report = true then [Event.debug tsp.report "starting: %s" s]
      else []).filter Event.isStart = [] := by
  split <;> simp [Event.isStart]

/-- C3. When the output description, or the input description, of the Java object
is `null`, a zero-length array or an array whose first string is empty, the start
method returns false, makes no call of the start of the engine, and leaves the
Java object, its engine included, as it was. -/
theorem C3_missing_name (D : Deps E) (env : JNIEnv) (obj : JTSProcessor E)
    (h : lacksName D obj.output ∨ lacksName D obj.input) :
    (Java_io_tsduck_TSProcessor_start D env obj).ret = false
      ∧ (∀ a, Event.start a ∉ (Java_io_tsduck_TSProcessor_start D env obj).calls)
      ∧ (Java_io_tsduck_TSProcessor_start D env obj).obj = obj := by
  have hok := start_args_lacksName D env obj h
  refine ⟨?_, ?_, ?_⟩
  · cases hn : obj.nativeObject with
    | none => simp [Java_io_tsduck_TSProcessor_start, hn]
    | some tsp => rw [start_some D env obj tsp hn, hok]; simp
  · intro a ha
    have h2 := (start_calls D env obj a ha).2.1
    rw [hok] at h2
    exact Bool.noConfusion h2
  · cases hn : obj.nativeObject with
    | none => simp [Java_io_tsduck_TSProcessor_start, hn]
    | some tsp => rw [start_some D env obj tsp hn, hok]; simp

/-- Witness of C3: the sample object, its output description replaced by an
array that holds one empty string, is refused and stays as it was. -/
theorem C3_missing_name_witness :
    (Java_io_tsduck_TSProcessor_start sampleDeps sampleEnv sampleNoOutput).ret = false
      ∧ (∀ a, Event.start a ∉ (Java_io_tsduck_TSProcessor_start sampleDeps sampleEnv sampleNoOutput).calls)
      ∧ (Java_io_tsduck_TSProcessor_start sampleDeps sampleEnv sampleNoOutput).obj = sampleNoOutput :=
  C3_missing_name sampleDeps sampleEnv sampleNoOutput
    (Or.inl (Or.inr (Or.inr ⟨some "", [], rfl, rfl⟩)))

theorem start_args_hasName (D : Deps E) (env : JNIEnv) (obj : JTSProcessor E)
    (hx : env.exceptionPending = false) :
    (Java_io_tsduck_TSProcessor_start.args D env obj).1 = true
      ↔ hasName D obj.input ∧ hasName D obj.output
        ∧ ∀ d ∈ obj.plugins.getD [], hasName D d := by
  rw [start_args_ok]
  simp only [Bool.and_eq_true, List.all_eq_true, GetPluginOption_hasName D env _ _ hx, and_assoc]

theorem GetPluginOption_pending (D : Deps E) (env : JNIEnv) (d : jstringArray)
    (plugin : PluginOptions) (hx : env.exceptionPending = true) :
    (GetPluginOption D (some env) d plugin).1 = false := by
  cases d with
  | none => simp [GetPluginOption]
  | some strings => simp [GetPluginOption, hx]

theorem start_args_valid (D : Deps E) (env : JNIEnv) (obj : JTSProcessor E) :
    (Java_io_tsduck_TSProcessor_start.args D env obj).1 = true ↔ validConfiguration D env obj := by
  unfold validConfiguration
  cases hx : env.exceptionPending with
  | false =>
    rw [start_args_hasName D env obj hx]
    simp
  | true =>
    rw [start_args_ok, GetPluginOption_pending D env obj.input _ hx]
    simp

theorem parsePlugin_describe (D : Deps E) (env : JNIEnv) (d : jstringArray)
    (hx : env.exceptionPending = false) (hd : hasName D d) :
    (GetPluginOption D (some env) d PluginOptions.empty).2 = describe D d := by
  obtain ⟨s, rest, rfl, _⟩ := hd
  rw [GetPluginOption_cons D env s rest _ hx]
  rfl

theorem TSProcessorArgs.eq_of_plugins (a b : TSProcessorArgs)
    (h : a = { b with input := a.input, plugins := a.plugins, output := a.output })
    (hi : a.input = b.input) (hp : a.plugins = b.plugins) (ho : a.output = b.output) :
    a = b := by
  rw [h, hi, hp, ho]

theorem start_args_fieldArgs (D : Deps E) (env : JNIEnv) (obj : JTSProcessor E)
    (hv : validConfiguration D env obj) :
    (Java_io_tsduck_TSProcessor_start.args D env obj).2 = fieldArgs D obj := by
  have hok := (start_args_valid D env obj).mpr hv
  obtain ⟨hx, hin, hout, hch⟩ := hv
  have hin1 : (GetPluginOption D (some env) obj.input PluginOptions.empty).1 = true :=
    (GetPluginOption_hasName D env obj.input _ hx).mpr hin
  apply TSProcessorArgs.eq_of_plugins _ _ rfl
  · exact parsePlugin_describe D env obj.input hx hin
  · rw [start_args_plugins D env obj hok]
    exact List.map_congr_left (fun d hd => parsePlugin_describe D env d hx (hch d hd))
  · show (if (GetPluginOption D (some env) obj.input PluginOptions.empty).1 = true
        then GetPluginOption D (some env) obj.output PluginOptions.empty
        else (false, PluginOptions.empty)).2 = describe D obj.output
    rw [if_pos hin1]
    exact parsePlugin_describe D env obj.output hx hout

/-- C4. With a non-null native object, the start method returns true exactly when
the configuration is valid and the start of the engine returns true on the
arguments that the fields stand for.  When the configuration is valid, the start
of the engine is called once, on these arguments, the result of the method is
the result of the engine and the engine is left in the state that its start
produced.  When the configuration is not valid, the method returns false, the
start of the engine is not called and the object stays as it was. -/
theorem C4_start_result (D : Deps E) (env : JNIEnv) (obj : JTSProcessor E) (tsp : TSProcessor E)
    (hn : obj.nativeObject = some tsp) :
    ((Java_io_tsduck_TSProcessor_start D env obj).ret = true
        ↔ validConfiguration D env obj ∧ (D.start tsp.state (fieldArgs D obj)).1 = true)
      ∧ (validConfiguration D env obj →
          (Java_io_tsduck_TSProcessor_start D env obj).calls.filter Event.isStart
              = [Event.start (fieldArgs D obj)]
            ∧ (Java_io_tsduck_TSProcessor_start D env obj).ret
              = (D.start tsp.state (fieldArgs D obj)).1
            ∧ (Java_io_tsduck_TSProcessor_start D env obj).obj
              = { obj with
                  nativeObject := some (TSProcessor.mk tsp.report
                    (D.start tsp.state (fieldArgs D obj)).2) })
      ∧ (¬ validConfiguration D env obj →
          (Java_io_tsduck_TSProcessor_start D env obj).ret = false
            ∧ (Java_io_tsduck_TSProcessor_start D env obj).calls.filter Event.isStart = []
            ∧ (Java_io_tsduck_TSProcessor_start D env obj).obj = obj) := by
  have hiff := start_args_valid D env obj
  by_cases hv : validConfiguration D env obj
  · have hok := hiff.mpr hv
    have ha := start_args_fieldArgs D env obj hv
    rw [start_some D env obj tsp hn, if_pos hok, ha]
    refine ⟨⟨fun h => ⟨hv, h⟩, fun h => h.2⟩, fun _ => ⟨?_, rfl, rfl⟩, fun h => absurd hv h⟩
    simp [filter_isStart_log, Event.isStart]
  · have hok : ¬ (Java_io_tsduck_TSProcessor_start.args D env obj).1 = true :=
      fun h => hv (hiff.mp h)
    rw [start_some D env obj tsp hn, if_neg hok]
    refine ⟨⟨fun h => Bool.noConfusion h, fun h => absurd h.1 hv⟩, fun h => absurd h hv,
      fun _ => ⟨rfl, filter_isStart_log D tsp _, rfl⟩⟩

/-- The sample object is a valid configuration. -/
theorem sampleObject_valid : validConfiguration sampleDeps sampleEnv sampleObject :=
  ⟨rfl, ⟨some "file", [some "in.ts"], rfl, by decide⟩, ⟨some "drop", [], rfl, by decide⟩,
    fun d hd => by
      have hd2 : d = some [some "until", some "--packets", some "10"] := by
        simpa [sampleObject] using hd
      exact ⟨some "until", [some "--packets", some "10"], hd2, by decide⟩⟩

/-- Witness of C4 on the sample object, whose engine is in state 0: the method
returns true, and the one start of the engine receives the input `file in.ts`,
the processor `until --packets 10` and the output `drop`. -/
theorem C4_start_result_witness :
    (Java_io_tsduck_TSProcessor_start sampleDeps sampleEnv sampleObject).ret = true
      ∧ (Java_io_tsduck_TSProcessor_start sampleDeps sampleEnv sampleObject).calls.filter
          Event.isStart = [Event.start (fieldArgs sampleDeps sampleObject)]
      ∧ (fieldArgs sampleDeps sampleObject).input = ⟨"file", ["in.ts"]⟩
      ∧ (fieldArgs sampleDeps sampleObject).plugins = [⟨"until", ["--packets", "10"]⟩]
      ∧ (fieldArgs sampleDeps sampleObject).output = ⟨"drop", []⟩ :=
  ⟨(C4_start_result sampleDeps sampleEnv sampleObject ⟨ReportPtr.NullReportInstance, 0⟩ rfl).1.mpr
      ⟨sampleObject_valid, by decide⟩,
    ((C4_start_result sampleDeps sampleEnv sampleObject ⟨ReportPtr.NullReportInstance, 0⟩
      rfl).2.1 sampleObject_valid).1,
    by decide, by decide, by decide⟩

theorem start_calls_iff (D : Deps E) (env : JNIEnv) (obj : JTSProcessor E) (tsp : TSProcessor E)
    (hn : obj.nativeObject = some tsp) :
    (∃ a, Event.start a ∈ (Java_io_tsduck_TSProcessor_start D env obj).calls)
      ↔ (Java_io_tsduck_TSProcessor_start.args D env obj).1 = true := by
  constructor
  · rintro ⟨a, ha⟩
    exact (start_calls D env obj a ha).2.1
  · intro hok
    refine ⟨(Java_io_tsduck_TSProcessor_start.args D env obj).2, ?_⟩
    rw [start_some D env obj tsp hn, if_pos hok]
    simp

/-- C5, as the code has it. With a non-null native object, no pending exception
and an input and an output description that have a non-empty name, the
validation of the start method succeeds, and the start of the engine is called,
exactly when every description of the processor chain has a non-empty name too. -/
theorem C5_validation (D : Deps E) (env : JNIEnv) (obj : JTSProcessor E) (tsp : TSProcessor E)
    (hn : obj.nativeObject = some tsp) (hx : env.exceptionPending = false)
    (hin : hasName D obj.input) (hout : hasName D obj.output) :
    ((Java_io_tsduck_TSProcessor_start.args D env obj).1 = true
        ↔ ∀ d ∈ obj.plugins.getD [], hasName D d)
      ∧ ((∃ a, Event.start a ∈ (Java_io_tsduck_TSProcessor_start D env obj).calls)
        ↔ ∀ d ∈ obj.plugins.getD [], hasName D d) := by
  have h1 : (Java_io_tsduck_TSProcessor_start.args D env obj).1 = true
      ↔ ∀ d ∈ obj.plugins.getD [], hasName D d := by
    rw [start_args_hasName D env obj hx]
    exact ⟨fun h => h.2.2, fun h => ⟨hin, hout, h⟩⟩
  exact ⟨h1, (start_calls_iff D env obj tsp hn).trans h1⟩

/-- Witness of C5 on the sample object, whose chain holds one named processor. -/
theorem C5_validation_witness :
    (Java_io_tsduck_TSProcessor_start.args sampleDeps sampleEnv sampleObject).1 = true
      ↔ ∀ d ∈ sampleObject.plugins.getD [], hasName sampleDeps d :=
  (C5_validation sampleDeps sampleEnv sampleObject ⟨ReportPtr.NullReportInstance, 0⟩ rfl rfl
    ⟨some "file", [some "in.ts"], rfl, by decide⟩ ⟨some "drop", [], rfl, by decide⟩).1

/-- C5 fails as stated, at two inputs that both have a named input, a named
output and no pending exception.  On the sample object with a processor chain
that holds one zero-length description, the validation fails, the method returns
false and the engine is not started.  On the sample object with a null handle,
the method returns false and no call is made. -/
theorem C5_counterexample :
    (hasName sampleDeps sampleBadChain.input
      ∧ hasName sampleDeps sampleBadChain.output
      ∧ sampleEnv.exceptionPending = false
      ∧ (Java_io_tsduck_TSProcessor_start.args sampleDeps sampleEnv sampleBadChain).1 = false
      ∧ (Java_io_tsduck_TSProcessor_start sampleDeps sampleEnv sampleBadChain).ret = false
      ∧ (Java_io_tsduck_TSProcessor_start sampleDeps sampleEnv sampleBadChain).calls = [])
    ∧ (hasName sampleDeps sampleDeleted.input
      ∧ hasName sampleDeps sampleDeleted.output
      ∧ sampleEnv.exceptionPending = false
      ∧ sampleDeleted.nativeObject = none
      ∧ (Java_io_tsduck_TSProcessor_start sampleDeps sampleEnv sampleDeleted).ret = false
      ∧ (Java_io_tsduck_TSProcessor_start sampleDeps sampleEnv sampleDeleted).calls = []) :=
  ⟨⟨⟨some "file", [some "in.ts"], rfl, by decide⟩, ⟨some "drop", [], rfl, by decide⟩, rfl,
      by decide, by decide, by decide⟩,
    ⟨⟨some "file", [some "in.ts"], rfl, by decide⟩, ⟨some "drop", [], rfl, by decide⟩, rfl,
      rfl, by decide, by decide⟩⟩

/-- C6. An empty processor chain is accepted.  With an input and an output
description that have a non-empty name, a `plugins` field that is `null` or a
zero-length array passes the validation of the start method, and the start of
the engine is called once, on the arguments that the fields stand for, whose
`plugins` has length 0.  The object has an engine and no exception is pending. -/
theorem C6_empty_chain (D : Deps E) (env : JNIEnv) (obj : JTSProcessor E) (tsp : TSProcessor E)
    (hn : obj.nativeObject = some tsp) (hx : env.exceptionPending = false)
    (hin : hasName D obj.input) (hout : hasName D obj.output)
    (hp : obj.plugins = none ∨ obj.plugins = some []) :
    (Java_io_tsduck_TSProcessor_start.args D env obj).1 = true
      ∧ (Java_io_tsduck_TSProcessor_start D env obj).calls.filter Event.isStart
          = [Event.start (Java_io_tsduck_TSProcessor_start.args D env obj).2]
      ∧ (Java_io_tsduck_TSProcessor_start.args D env obj).2.plugins.length = 0
      ∧ validConfiguration D env obj
      ∧ (Java_io_tsduck_TSProcessor_start.args D env obj).2 = fieldArgs D obj
      ∧ (fieldArgs D obj).plugins = []
      ∧ (Java_io_tsduck_TSProcessor_start D env obj).ret
          = (D.start tsp.state (fieldArgs D obj)).1 := by
  have hnil : obj.plugins.getD [] = [] := by
    rcases hp with hp | hp <;> simp [hp]
  have hv : validConfiguration D env obj :=
    ⟨hx, hin, hout, fun d hd => by rw [hnil] at hd; simp at hd⟩
  have hok : (Java_io_tsduck_TSProcessor_start.args D env obj).1 = true :=
    (start_args_valid D env obj).mpr hv
  have ha := start_args_fieldArgs D env obj hv
  refine ⟨hok, ?_, ?_, hv, ha, ?_, ?_⟩
  · rw [start_some D env obj tsp hn, if_pos hok]
    simp [filter_isStart_log, Event.isStart]
  · rw [start_args_plugins_length, hnil]
    rfl
  · show (obj.plugins.getD []).map (describe D) = []
    rw [hnil]
    rfl
  · rw [start_some D env obj tsp hn, if_pos hok, ha]

/-- Witness of C6 on the sample object with a `null` chain. -/
theorem C6_empty_chain_witness :
    (Java_io_tsduck_TSProcessor_start.args sampleDeps sampleEnv sampleNoChain).1 = true
      ∧ (Java_io_tsduck_TSProcessor_start sampleDeps sampleEnv sampleNoChain).calls.filter
          Event.isStart
          = [Event.start (Java_io_tsduck_TSProcessor_start.args sampleDeps sampleEnv sampleNoChain).2]
      ∧ (Java_io_tsduck_TSProcessor_start.args sampleDeps sampleEnv sampleNoChain).2.plugins.length
          = 0
      ∧ validConfiguration sampleDeps sampleEnv sampleNoChain
      ∧ (Java_io_tsduck_TSProcessor_start.args sampleDeps sampleEnv sampleNoChain).2
          = fieldArgs sampleDeps sampleNoChain
      ∧ (fieldArgs sampleDeps sampleNoChain).plugins = []
      ∧ (Java_io_tsduck_TSProcessor_start sampleDeps sampleEnv sampleNoChain).ret
          = (sampleDeps.start 0 (fieldArgs sampleDeps sampleNoChain)).1 :=
  C6_empty_chain sampleDeps sampleEnv sampleNoChain ⟨ReportPtr.NullReportInstance, 0⟩ rfl rfl
    ⟨some "file", [some "in.ts"], rfl, by decide⟩ ⟨some "drop", [], rfl, by decide⟩
    (Or.inl rfl)

/-- C7. For a non-null array of `n ≥ 1` strings and no pending exception,
`GetPluginOption` sets the name to the first string and the arguments to the
other `n - 1` strings in their order, and returns true exactly when the name is
not empty.  When the validation of the start method succeeds, the `plugins` of
the arguments has the length of the `plugins` array, and its entries are the
descriptions read from the entries of the array, in the same order. -/
theorem C7_plugins_in_order (D : Deps E) (env : JNIEnv) (hx : env.exceptionPending = false) :
    (∀ (strings : List jstring) (plugin : PluginOptions) (hn : 0 < strings.length),
        (GetPluginOption D (some env) (some strings) plugin).2.name = D.ToUString strings[0]
          ∧ (GetPluginOption D (some env) (some strings) plugin).2.args
              = (strings.drop 1).map D.ToUString
          ∧ (GetPluginOption D (some env) (some strings) plugin).2.args.length
              = strings.length - 1
          ∧ ((GetPluginOption D (some env) (some strings) plugin).1 = true
              ↔ D.ToUString strings[0] ≠ ""))
      ∧ (∀ obj : JTSProcessor E, (Java_io_tsduck_TSProcessor_start.args D env obj).1 = true →
          (Java_io_tsduck_TSProcessor_start.args D env obj).2.plugins.length
              = (obj.plugins.getD []).length
            ∧ (Java_io_tsduck_TSProcessor_start.args D env obj).2.plugins
              = (obj.plugins.getD []).map (parsePlugin D env)
            ∧ ∀ a, Event.start a ∈ (Java_io_tsduck_TSProcessor_start D env obj).calls →
                a.plugins = (obj.plugins.getD []).map (parsePlugin D env)) := by
  constructor
  · intro strings plugin hn
    cases strings with
    | nil => simp at hn
    | cons s rest =>
      rw [GetPluginOption_cons D env s rest plugin hx]
      refine ⟨rfl, by simp, by simp, ?_⟩
      simp only [List.getElem_cons_zero, Bool.not_eq_true', ne_eq]
      constructor
      · intro h he
        have hb := (String.isEmpty_iff _).mpr he
        rw [hb] at h
        exact Bool.noConfusion h
      · intro hne
        cases hb : (D.ToUString s).isEmpty with
        | false => rfl
        | true => exact absurd ((String.isEmpty_iff _).mp hb) hne
  · intro obj hok
    have hp := start_args_plugins D env obj hok
    refine ⟨start_args_plugins_length D env obj, hp, ?_⟩
    intro a ha
    rw [(start_calls D env obj a ha).1]
    exact hp

/-- Witness of C7 on the processor description of the sample object and on the
sample object itself. -/
theorem C7_plugins_in_order_witness :
    (GetPluginOption sampleDeps (some sampleEnv)
        (some [some "until", some "--packets", some "10"]) PluginOptions.empty).2.name = "until"
      ∧ (GetPluginOption sampleDeps (some sampleEnv)
        (some [some "until", some "--packets", some "10"]) PluginOptions.empty).2.args
          = ["--packets", "10"]
      ∧ (Java_io_tsduck_TSProcessor_start.args sampleDeps sampleEnv sampleObject).2.plugins
          = [⟨"until", ["--packets", "10"]⟩] :=
  ⟨((C7_plugins_in_order sampleDeps sampleEnv rfl).1
      [some "until", some "--packets", some "10"] PluginOptions.empty (by decide)).1,
    ((C7_plugins_in_order sampleDeps sampleEnv rfl).1
      [some "until", some "--packets", some "10"] PluginOptions.empty (by decide)).2.1,
    (((C7_plugins_in_order sampleDeps sampleEnv rfl).2 sampleObject (by decide)).2.1).trans
      (by decide)⟩

/-- C9. On a Java object whose `nativeObject` handle is null, the native methods
abort, waitForTermination and delete leave the object as it is and make no call,
and the start method returns false, leaves the object as it is and makes no
call.  The delete method leaves a null handle on any object, so that a second
delete changes nothing and makes no call. -/
theorem C9_null_handle (D : Deps E) (env : JNIEnv) (obj : JTSProcessor E) :
    (obj.nativeObject = none →
        ((Java_io_tsduck_TSProcessor_abort D env obj).obj = obj
          ∧ (Java_io_tsduck_TSProcessor_abort D env obj).calls = [])
        ∧ ((Java_io_tsduck_TSProcessor_waitForTermination D env obj).obj = obj
          ∧ (Java_io_tsduck_TSProcessor_waitForTermination D env obj).calls = [])
        ∧ ((Java_io_tsduck_TSProcessor_delete D env obj).obj = obj
          ∧ (Java_io_tsduck_TSProcessor_delete D env obj).calls = [])
        ∧ ((Java_io_tsduck_TSProcessor_start D env obj).ret = false
          ∧ (Java_io_tsduck_TSProcessor_start D env obj).obj = obj
          ∧ (Java_io_tsduck_TSProcessor_start D env obj).calls = []))
      ∧ (Java_io_tsduck_TSProcessor_delete D env obj).obj.nativeObject = none
      ∧ (Java_io_tsduck_TSProcessor_delete D env
          (Java_io_tsduck_TSProcessor_delete D env obj).obj).obj
          = (Java_io_tsduck_TSProcessor_delete D env obj).obj
      ∧ (Java_io_tsduck_TSProcessor_delete D env
          (Java_io_tsduck_TSProcessor_delete D env obj).obj).calls = [] := by
  refine ⟨fun hn => ?_, ?_, ?_, ?_⟩
  · simp [Java_io_tsduck_TSProcessor_abort, Java_io_tsduck_TSProcessor_waitForTermination,
      Java_io_tsduck_TSProcessor_delete, Java_io_tsduck_TSProcessor_start, hn]
  all_goals
    cases hn : obj.nativeObject <;> simp [Java_io_tsduck_TSProcessor_delete, hn]

/-- Witness of C9: the sample object, once deleted, refuses to start. -/
theorem C9_null_handle_witness :
    (Java_io_tsduck_TSProcessor_start sampleDeps sampleEnv
        (Java_io_tsduck_TSProcessor_delete sampleDeps sampleEnv sampleObject).obj).ret = false :=
  ((C9_null_handle sampleDeps sampleEnv
    (Java_io_tsduck_TSProcessor_delete sampleDeps sampleEnv sampleObject).obj).1 rfl).2.2.2.1

/-- C10. The native method initNativeObject, on an object whose handle is not
null, leaves the object as it is and builds no engine, so that a second call
after a first one changes nothing.  On an object whose handle is null it builds
one engine, on the native object of the given report or on the null report when
the given report has none, stores it in the handle and leaves the other fields
as they are. -/
theorem C10_init_once (D : Deps E) (env : JNIEnv) (obj : JTSProcessor E) (jreport : JReport) :
    (∀ tsp, obj.nativeObject = some tsp →
        (Java_io_tsduck_TSProcessor_initNativeObject D env obj jreport).obj = obj
          ∧ (Java_io_tsduck_TSProcessor_initNativeObject D env obj jreport).calls = [])
      ∧ (∀ jreport2 : JReport,
          (Java_io_tsduck_TSProcessor_initNativeObject D env
            (Java_io_tsduck_TSProcessor_initNativeObject D env obj jreport).obj jreport2).obj
            = (Java_io_tsduck_TSProcessor_initNativeObject D env obj jreport).obj
          ∧ (Java_io_tsduck_TSProcessor_initNativeObject D env
            (Java_io_tsduck_TSProcessor_initNativeObject D env obj jreport).obj jreport2).calls
            = [])
      ∧ (obj.nativeObject = none →
          (Java_io_tsduck_TSProcessor_initNativeObject D env obj jreport).obj
            = { obj with
                nativeObject := some (TSProcessor.mk
                  (jreport.nativeObject.getD ReportPtr.NullReportInstance)
                  (D.construct (jreport.nativeObject.getD ReportPtr.NullReportInstance))) }
          ∧ (Java_io_tsduck_TSProcessor_initNativeObject D env obj jreport).calls
            = [Event.construct (jreport.nativeObject.getD ReportPtr.NullReportInstance)]) := by
  refine ⟨fun tsp hn => ?_, fun jreport2 => ?_, fun hn => ?_⟩
  · simp [Java_io_tsduck_TSProcessor_initNativeObject, hn]
  · cases hn : obj.nativeObject <;> simp [Java_io_tsduck_TSProcessor_initNativeObject, hn]
  · cases hr : jreport.nativeObject <;>
      simp [Java_io_tsduck_TSProcessor_initNativeObject, hn, hr]

/-- Witness of C10: on the deleted sample object and a report without native
object, one engine is built on the null report. -/
theorem C10_init_once_witness :
    (Java_io_tsduck_TSProcessor_initNativeObject sampleDeps sampleEnv
        (Java_io_tsduck_TSProcessor_delete sampleDeps sampleEnv sampleObject).obj ⟨none⟩).calls
      = [Event.construct ReportPtr.NullReportInstance] :=
  ((C10_init_once sampleDeps sampleEnv
    (Java_io_tsduck_TSProcessor_delete sampleDeps sampleEnv sampleObject).obj ⟨none⟩).2.2 rfl).2

end

end tsjni
